import Mathlib

/-!
Shallow embedding of SimpleGrad's operator catalog (`src/ops.rs`).

The scalar type `DType` (`f32` in the source) is idealised as `ℝ`; the
float operations `powf` and `ln` become `Real.rpow` and `Real.log`.
A value buffer (`Vec<f32>` / `&[f32]`) is a `List ℝ`.  A Rust panic
(out-of-bounds index, `clone_from_slice` length mismatch, indexing an
empty child list) is modelled as `Option.none`.

Each operator's `compute_grad(grad, results)` takes the per-child output
buffers by value and returns their final contents.  The backward engine
always passes exactly one pre-sized buffer per child; a `results` slice
of any other shape is treated as the panicking case.
-/

namespace SimpleGrad

/-- The source's scalar type `DType = f32`, idealised as `ℝ`. -/
abbrev DType : Type := ℝ

/-- Modelled from the spec: `vecops::imul`, the external vector kernel's
in-place elementwise multiply into an existing buffer, specified for
equal-length sequences (spec section 6). -/
def imul (out grad : List DType) : List DType :=
  List.zipWith (· * ·) out grad

/-- Modelled from the spec: `vecops::iadd`, the external vector kernel's
in-place elementwise add into an existing buffer, specified for
equal-length sequences (spec section 6). -/
def iadd (agg x : List DType) : List DType :=
  List.zipWith (· + ·) agg x

/-- Rust `slice::clone_from_slice`: copies `src` over `dst`, panicking
(`none`) when the lengths differ. -/
def cloneFromSlice (dst src : List DType) : Option (List DType) :=
  if dst.length = src.length then some src else none

/-- Rust `slice::fill`: overwrite every element of `out` with `c`. -/
def fillList (out : List DType) (c : DType) : List DType :=
  List.replicate out.length c

/-- The write pattern `out.iter_mut().zip(new).for_each(|(o, v)| *o = v)`:
positions `0..min` of `out` receive `new`, the tail of `out` is left
untouched. -/
def writeZip (out new : List DType) : List DType :=
  new.take out.length ++ out.drop new.length

/-- Three-way elementwise zip, used only to state claimed gradient
formulas over three equal-length vectors. -/
def zipWith3 (f : DType → DType → DType → DType) :
    List DType → List DType → List DType → List DType
  | a :: as_, b :: bs, c :: cs => f a b c :: zipWith3 f as_ bs cs
  | _, _, _ => []

/-- `Variable::compute_grad` (ops.rs:39-41): a no-op, every buffer is
left exactly as it was. -/
def Variable.computeGrad (_grad : List DType) (results : List (List DType)) :
    List (List DType) :=
  results

/-- Modelled from the spec: `Constant` relies on the `Node` trait's
default `compute_grad` (the trait definition is not under `src/`); a
leaf has no children, so nothing is written (spec section 4.2). -/
def Constant.computeGrad (_grad : List DType) (results : List (List DType)) :
    List (List DType) :=
  results

/-- `AddN::compute_grad` (ops.rs:106-112): clone `grad` into both
child buffers. -/
def AddN.computeGrad (grad : List DType) (results : List (List DType)) :
    Option (List (List DType)) :=
  match results with
  | [r0, r1] => do
    let a ← cloneFromSlice r0 grad
    let b ← cloneFromSlice r1 grad
    pure [a, b]
  | _ => none

/-- `Subtract::compute_grad` (ops.rs:150-159): fill with `1` resp. `-1`,
then multiply in place by `grad`. -/
def Subtract.computeGrad (grad : List DType) (results : List (List DType)) :
    Option (List (List DType)) :=
  match results with
  | [r0, r1] => some [imul (fillList r0 1) grad, imul (fillList r1 (-1)) grad]
  | _ => none

/-- `Multiply::compute_grad` (ops.rs:197-208): clone the sibling's value
into each buffer, then multiply in place by `grad`. -/
def Multiply.computeGrad (x y grad : List DType) (results : List (List DType)) :
    Option (List (List DType)) :=
  match results with
  | [r0, r1] => do
    let a ← cloneFromSlice r0 y
    let b ← cloneFromSlice r1 x
    pure [imul a grad, imul b grad]
  | _ => none

/-- `Divide::compute_grad` (ops.rs:246-263): numerator buffer gets
`1 / yi`, denominator buffer gets `-xi / yi.powf(2.0)`, each then
multiplied in place by `grad`. -/
noncomputable def Divide.computeGrad (x y grad : List DType)
    (results : List (List DType)) : Option (List (List DType)) :=
  match results with
  | [r0, r1] =>
    some [imul (writeZip r0 (y.map fun yi => 1 / yi)) grad,
          imul (writeZip r1 (List.zipWith (fun xi yi => -xi / Real.rpow yi 2) x y)) grad]
  | _ => none

/-- `Power::compute_grad` (ops.rs:299-316): base buffer gets
`yi * xi.powf(yi - 1.0)`, exponent buffer gets `(yi).ln() * xi.powf(yi)`
(note: the log of the *exponent*), each then multiplied in place by
`grad`. -/
noncomputable def Power.computeGrad (x y grad : List DType)
    (results : List (List DType)) : Option (List (List DType)) :=
  match results with
  | [r0, r1] =>
    some [imul (writeZip r0 (List.zipWith (fun xi yi => yi * Real.rpow xi (yi - 1)) x y)) grad,
          imul (writeZip r1 (List.zipWith (fun xi yi => Real.log yi * Real.rpow xi yi) x y)) grad]
  | _ => none

/-- `SumVec::compute_grad` (ops.rs:351-356): `results[0].fill(grad[0])`;
panics when the upstream gradient is empty. -/
def SumVec.computeGrad (grad : List DType) (results : List (List DType)) :
    Option (List (List DType)) :=
  match results, grad with
  | [r0], g0 :: _ => some [fillList r0 g0]
  | _, _ => none

/-- `Cos::compute_grad` (ops.rs:390-396): `*oi = gi * -xi.sin()`. -/
noncomputable def Cos.computeGrad (x grad : List DType)
    (results : List (List DType)) : Option (List (List DType)) :=
  match results with
  | [r0] => some [writeZip r0 (List.zipWith (fun gi xi => gi * -Real.sin xi) grad x)]
  | _ => none

/-- `Sin::compute_grad` (ops.rs:430-436): `*oi = gi * xi.cos()`. -/
noncomputable def Sin.computeGrad (x grad : List DType)
    (results : List (List DType)) : Option (List (List DType)) :=
  match results with
  | [r0] => some [writeZip r0 (List.zipWith (fun gi xi => gi * Real.cos xi) grad x)]
  | _ => none

/-- `Ln::compute_grad` (ops.rs:470-476): `*oi = gi / xi`. -/
noncomputable def Ln.computeGrad (x grad : List DType)
    (results : List (List DType)) : Option (List (List DType)) :=
  match results with
  | [r0] => some [writeZip r0 (List.zipWith (fun gi xi => gi / xi) grad x)]
  | _ => none

/-- `Exp::compute_grad` (ops.rs:510-515): clone the node's own cached
forward value into the buffer, then multiply in place by `grad`. -/
def Exp.computeGrad (value grad : List DType) (results : List (List DType)) :
    Option (List (List DType)) :=
  match results with
  | [r0] => do
    let a ← cloneFromSlice r0 value
    pure [imul a grad]
  | _ => none

/-- `Negate::compute_grad` (ops.rs:549-553): `*oi = -gi`. -/
def Negate.computeGrad (grad : List DType) (results : List (List DType)) :
    Option (List (List DType)) :=
  match results with
  | [r0] => some [writeZip r0 (grad.map fun gi => -gi)]
  | _ => none

/-- `BulkSum::compute_grad` (ops.rs:591-597): clone `grad` into every
buffer in order; a length mismatch panics. -/
def BulkSum.computeGrad (grad : List DType) :
    List (List DType) → Option (List (List DType))
  | [] => some []
  | r :: rest => do
    let a ← cloneFromSlice r grad
    let b ← BulkSum.computeGrad grad rest
    pure (a :: b)

/-- `Power::compute` (ops.rs:277-281): zip the two children's values and
map `powf`; the zip silently truncates to the shorter operand. -/
noncomputable def Power.compute (lv rv : List DType) : List DType :=
  List.zipWith (fun lvi rvi => Real.rpow lvi rvi) lv rv

/-- `SumVec::compute` (ops.rs:330-333): the single-element sequence
holding the sum of the child's value. -/
def SumVec.compute (lv : List DType) : List DType :=
  [lv.sum]

/-- `BulkSum::compute` (ops.rs:567-573): sizes the accumulator from
`xs[0]` (panicking on an empty child list), then `iadd`s every child's
value into it. -/
def BulkSum.compute (xs : List (List DType)) : Option (List DType) :=
  match xs with
  | [] => none
  | x0 :: _ => some (xs.foldl (fun agg x => iadd agg x) (List.replicate x0.length 0))

/-- `Variable::requires_grad` (ops.rs:37). -/
def Variable.requiresGrad : Bool := true

/-- `Constant::requires_grad` (ops.rs:68). -/
def Constant.requiresGrad : Bool := false

/-- `AddN::requires_grad` (ops.rs:104). -/
def AddN.requiresGrad : Bool := false

/-- `Subtract::requires_grad` (ops.rs:148). -/
def Subtract.requiresGrad : Bool := false

/-- `Multiply::requires_grad` (ops.rs:195). -/
def Multiply.requiresGrad : Bool := false

/-- `Divide::requires_grad` (ops.rs:244). -/
def Divide.requiresGrad : Bool := false

/-- `Power::requires_grad` (ops.rs:297). -/
def Power.requiresGrad : Bool := false

/-- `SumVec::requires_grad` (ops.rs:349). -/
def SumVec.requiresGrad : Bool := false

/-- `Cos::requires_grad` (ops.rs:388). -/
def Cos.requiresGrad : Bool := false

/-- `Sin::requires_grad` (ops.rs:428). -/
def Sin.requiresGrad : Bool := false

/-- `Ln::requires_grad` (ops.rs:468). -/
def Ln.requiresGrad : Bool := false

/-- `Exp::requires_grad` (ops.rs:508). -/
def Exp.requiresGrad : Bool := false

/-- `Negate::requires_grad` (ops.rs:547). -/
def Negate.requiresGrad : Bool := false

/-- `BulkSum::requires_grad` (ops.rs:589). -/
def BulkSum.requiresGrad : Bool := false

theorem cloneFromSlice_eq (dst src : List DType) (h : dst.length = src.length) :
    cloneFromSlice dst src = some src := by
  simp [cloneFromSlice, h]

theorem writeZip_eq (out new : List DType) (h : out.length = new.length) :
    writeZip out new = new := by
  unfold writeZip
  rw [h, List.take_length, ← h, List.drop_length, List.append_nil]

theorem zipWith_getD (f : DType → DType → DType) (a : List DType) :
    ∀ (b : List DType) (i : ℕ), i < a.length → i < b.length →
      (List.zipWith f a b).getD i 0 = f (a.getD i 0) (b.getD i 0) := by
  induction a with
  | nil => intro b i hi _; simp at hi
  | cons a0 a1 ih =>
    intro b i hi hib
    cases b with
    | nil => simp at hib
    | cons b0 b1 =>
      cases i with
      | zero => simp
      | succ j =>
        simp only [List.zipWith_cons_cons, List.getD_cons_succ]
        exact ih b1 j (by simpa using hi) (by simpa using hib)

theorem getD_replicate_zero (n i : ℕ) :
    (List.replicate n (0 : DType)).getD i 0 = 0 := by
  induction n generalizing i with
  | zero => simp
  | succ m ih =>
    cases i with
    | zero => simp
    | succ j => simp [List.replicate_succ]

theorem rpow_ofNat_two (r : DType) : Real.rpow r 2 = r ^ 2 := by
  show r ^ (2 : ℝ) = r ^ 2
  rw [show (2 : ℝ) = ((2 : ℕ) : ℝ) by norm_num, Real.rpow_natCast]

/-- Claim C6: `requires_grad()` is `true` for `Variable` and `false` for
`Constant` and every composite operator.  In the embedding each flag is
a constant of the node type, mirroring that every implementation returns
a literal and no operation can mutate it after construction. -/
theorem claim6_requires_grad :
    Variable.requiresGrad = true ∧ Constant.requiresGrad = false ∧
    AddN.requiresGrad = false ∧ Subtract.requiresGrad = false ∧
    Multiply.requiresGrad = false ∧ Divide.requiresGrad = false ∧
    Power.requiresGrad = false ∧ SumVec.requiresGrad = false ∧
    Cos.requiresGrad = false ∧ Sin.requiresGrad = false ∧
    Ln.requiresGrad = false ∧ Exp.requiresGrad = false ∧
    Negate.requiresGrad = false ∧ BulkSum.requiresGrad = false := by
  decide

/-- Claim C8: `Variable::compute_grad` is a no-op: for every upstream
gradient and every set of output buffers it leaves every buffer exactly
as it was. -/
theorem claim8_variable_grad_noop :
    ∀ (g : List DType) (results : List (List DType)),
      Variable.computeGrad g results = results := by
  intro g results
  rfl

/-- Claim C7: the Power operator's forward value is the elementwise
power of its children's cached values; at `[0,1,2]` and `[2,3,3]` it is
`[0,1,8]`. -/
theorem claim7_power_forward :
    Power.compute [0, 1, 2] [2, 3, 3] = [0, 1, 8] := by
  have h0 : Real.rpow 0 2 = 0 := Real.zero_rpow (by norm_num)
  have h1 : Real.rpow 1 3 = 1 := Real.one_rpow 3
  have h2 : Real.rpow 2 3 = 8 := by
    show (2 : ℝ) ^ (3 : ℝ) = 8
    rw [show (3 : ℝ) = ((3 : ℕ) : ℝ) by norm_num, Real.rpow_natCast]
    norm_num
  simp [Power.compute, h0, h1, h2]
  norm_num

/-- Counterexample to claim C3: `Power` built over operands of lengths 2
and 3 does not fail; it silently truncates, producing the length-2 value
`[1, 1]`. -/
theorem claim3_counterexample :
    Power.compute [(1 : DType), 1] [1, 1, 1] = [1, 1] ∧
    ([(1 : DType), 1]).length ≠ ([1, 1, 1] : List DType).length := by
  constructor
  · simp [Power.compute, Real.one_rpow]
  · decide

/-- Claim C3 as amended: a length mismatch between `Power`'s operands is
not rejected at construction; the forward value is silently truncated to
the shorter operand (length `min m n`, strictly shorter than the longer
operand). -/
theorem claim3_amended_power_truncates (lv rv : List DType)
    (h : lv.length ≠ rv.length) :
    (Power.compute lv rv).length = min lv.length rv.length ∧
    min lv.length rv.length < max lv.length rv.length := by
  constructor
  · simp [Power.compute]
  · exact min_lt_max.mpr h

theorem claim3_amended_witness :
    ([(1 : DType)]).length ≠ ([1, 1] : List DType).length ∧
    ((Power.compute [(1 : DType)] [1, 1]).length
        = min ([(1 : DType)]).length ([1, 1] : List DType).length ∧
      min ([(1 : DType)]).length ([1, 1] : List DType).length
        < max ([(1 : DType)]).length ([1, 1] : List DType).length) :=
  ⟨by decide, claim3_amended_power_truncates [(1 : DType)] [1, 1] (by decide)⟩

/-- Claim C10: `Power::new` is total over children of unequal lengths:
the forward value has length `min m n`, pairs elements positionally, and
drops the longer child's excess. -/
theorem claim10_power_total (lv rv : List DType) (i : ℕ)
    (h1 : i < lv.length) (h2 : i < rv.length) :
    (Power.compute lv rv).length = min lv.length rv.length ∧
    (Power.compute lv rv).getD i 0 = Real.rpow (lv.getD i 0) (rv.getD i 0) := by
  constructor
  · simp [Power.compute]
  · exact zipWith_getD _ lv rv i h1 h2

theorem claim10_witness :
    (0 < ([(2 : DType), 5]).length ∧ 0 < ([(3 : DType)]).length) ∧
    ((Power.compute [(2 : DType), 5] [(3 : DType)]).length
        = min ([(2 : DType), 5]).length ([(3 : DType)]).length ∧
      (Power.compute [(2 : DType), 5] [(3 : DType)]).getD 0 0
        = Real.rpow (([(2 : DType), 5]).getD 0 0) (([(3 : DType)]).getD 0 0)) :=
  ⟨⟨by decide, by decide⟩,
    claim10_power_total [(2 : DType), 5] [(3 : DType)] 0 (by decide) (by decide)⟩

/-- Claim C5: `SumVec` over a non-empty child has forward value
`[Σ xᵢ]`, and its `compute_grad` fills the child's pre-sized buffer by
broadcasting the single upstream gradient element to every position. -/
theorem claim5_sumvec (x r0 : List DType) (g0 : DType)
    (_hx : x ≠ []) (h0 : r0.length = x.length) :
    SumVec.compute x = [x.sum] ∧
    SumVec.computeGrad [g0] [r0] = some [List.replicate x.length g0] := by
  constructor
  · rfl
  · simp [SumVec.computeGrad, fillList, h0]

theorem claim5_witness :
    (([(1 : DType), 2]) ≠ [] ∧
      ([(0 : DType), 0]).length = ([(1 : DType), 2]).length) ∧
    (SumVec.compute [(1 : DType), 2] = [([(1 : DType), 2]).sum] ∧
      SumVec.computeGrad [(3 : DType)] [[(0 : DType), 0]]
        = some [List.replicate ([(1 : DType), 2]).length (3 : DType)]) :=
  ⟨⟨by simp, by decide⟩,
    claim5_sumvec [(1 : DType), 2] [(0 : DType), 0] 3 (by simp) (by decide)⟩

/-- Claim C1 (code bug): at base value `[1]`, exponent value `[2]`,
upstream gradient `[1]`, the claimed exponent-branch contribution
`g·ln(x)·xʸ` is `[ln 1 · 1] = [0]`, but the code (ops.rs:314, which
takes `(yi).ln()`, the log of the exponent) writes `[ln 2] ≠ [0]`. -/
theorem claim1_power_exp_grad_bug :
    Power.computeGrad [1] [2] [1] [[0], [0]] = some [[2], [Real.log 2]] ∧
    Real.log 2 ≠ 0 := by
  constructor
  · simp [Power.computeGrad, writeZip, imul]
  · exact ne_of_gt (Real.log_pos (by norm_num))

theorem imul_map_one_div (y : List DType) :
    ∀ g : List DType,
      imul (y.map fun yi => 1 / yi) g = List.zipWith (fun gi yi => gi / yi) g y := by
  induction y with
  | nil => intro g; simp [imul]
  | cons y0 y1 ih =>
    intro g
    cases g with
    | nil => simp [imul]
    | cons g0 g1 =>
      have tail := ih g1
      simp only [List.map_cons, imul, List.zipWith_cons_cons] at tail ⊢
      rw [one_div_mul_eq_div y0 g0, tail]

theorem imul_negdiv_rpow (x : List DType) :
    ∀ y g : List DType,
      imul (List.zipWith (fun xi yi => -xi / Real.rpow yi 2) x y) g
        = zipWith3 (fun gi xi yi => -(gi * xi) / yi ^ 2) g x y := by
  induction x with
  | nil =>
    intro y g
    cases g <;> cases y <;> rfl
  | cons x0 x1 ih =>
    intro y g
    cases y with
    | nil => cases g <;> rfl
    | cons y0 y1 =>
      cases g with
      | nil => rfl
      | cons g0 g1 =>
        have tail := ih y1 g1
        have head : -x0 / Real.rpow y0 2 * g0 = -(g0 * x0) / y0 ^ 2 := by
          rw [rpow_ofNat_two]
          ring
        simp only [List.zipWith_cons_cons, imul, zipWith3] at tail ⊢
        rw [head, tail]

/-- Claim C4: for `Divide` with equal-length children `x`, `y` and an
upstream gradient `g` of the same length, `compute_grad` writes
elementwise `g / y` into the numerator child's buffer and
`-(g·x) / y²` into the denominator child's buffer. -/
theorem claim4_divide_grad (n : ℕ) (x y g r0 r1 : List DType)
    (hx : x.length = n) (hy : y.length = n) (_hg : g.length = n)
    (h0 : r0.length = n) (h1 : r1.length = n) :
    Divide.computeGrad x y g [r0, r1] =
      some [List.zipWith (fun gi yi => gi / yi) g y,
            zipWith3 (fun gi xi yi => -(gi * xi) / yi ^ 2) g x y] := by
  have w0 : writeZip r0 (y.map fun yi => 1 / yi) = y.map fun yi => 1 / yi :=
    writeZip_eq _ _ (by simp [h0, hy])
  have w1 : writeZip r1 (List.zipWith (fun xi yi => -xi / Real.rpow yi 2) x y)
      = List.zipWith (fun xi yi => -xi / Real.rpow yi 2) x y :=
    writeZip_eq _ _ (by simp [h1, hx, hy])
  simp only [Divide.computeGrad, w0, w1, imul_map_one_div, imul_negdiv_rpow]

theorem claim4_witness :
    (([(2 : DType)]).length = 1 ∧ ([(3 : DType)]).length = 1 ∧
      ([(4 : DType)]).length = 1 ∧ ([(5 : DType)]).length = 1 ∧
      ([(6 : DType)]).length = 1) ∧
    Divide.computeGrad [(2 : DType)] [(3 : DType)] [(4 : DType)]
        [[(5 : DType)], [(6 : DType)]] =
      some [List.zipWith (fun gi yi => gi / yi) [(4 : DType)] [(3 : DType)],
            zipWith3 (fun gi xi yi => -(gi * xi) / yi ^ 2)
              [(4 : DType)] [(2 : DType)] [(3 : DType)]] :=
  ⟨⟨by decide, by decide, by decide, by decide, by decide⟩,
    claim4_divide_grad 1 [(2 : DType)] [(3 : DType)] [(4 : DType)]
      [(5 : DType)] [(6 : DType)] (by decide) (by decide) (by decide)
      (by decide) (by decide)⟩

theorem foldl_iadd_getD (n i : ℕ) (hi : i < n) :
    ∀ (xs : List (List DType)) (acc : List DType),
      (∀ x ∈ xs, x.length = n) → acc.length = n →
      (xs.foldl (fun agg x => iadd agg x) acc).length = n ∧
      (xs.foldl (fun agg x => iadd agg x) acc).getD i 0
        = acc.getD i 0 + (xs.map (fun x => x.getD i 0)).sum := by
  intro xs
  induction xs with
  | nil =>
    intro acc _ hacc
    exact ⟨hacc, by simp⟩
  | cons x xt ih =>
    intro acc hxs hacc
    have hx : x.length = n := hxs x (by simp)
    have hlen : (iadd acc x).length = n := by
      simp [iadd, hacc, hx]
    have h2 := ih (iadd acc x) (fun z hz => hxs z (by simp [hz])) hlen
    have hg : (iadd acc x).getD i 0 = acc.getD i 0 + x.getD i 0 :=
      zipWith_getD _ acc x i (by omega) (by omega)
    constructor
    · simpa using h2.1
    · rw [List.foldl_cons]
      have := h2.2
      simp only [List.map_cons, List.sum_cons]
      rw [this, hg, add_assoc]

/-- Claim C9: `BulkSum::compute` on an empty child list panics (indexing
`xs[0]`); with at least one child, all of equal length `n`, it succeeds
and the forward value is the elementwise sum of all children's values. -/
theorem claim9_bulksum (xs : List (List DType)) (n i : ℕ)
    (hne : xs ≠ []) (hxs : ∀ x ∈ xs, x.length = n) (hi : i < n) :
    BulkSum.compute ([] : List (List DType)) = none ∧
    ∃ v, BulkSum.compute xs = some v ∧ v.length = n ∧
      v.getD i 0 = (xs.map (fun x => x.getD i 0)).sum := by
  refine ⟨rfl, ?_⟩
  cases xs with
  | nil => exact absurd rfl hne
  | cons x0 xt =>
    have hx0 : x0.length = n := hxs x0 (by simp)
    have hfold := foldl_iadd_getD n i hi (x0 :: xt)
      (List.replicate x0.length 0) hxs (by simp [hx0])
    refine ⟨_, rfl, hfold.1, ?_⟩
    rw [hfold.2, getD_replicate_zero, zero_add]

theorem claim9_witness :
    (([[(5 : DType)]] : List (List DType)) ≠ [] ∧
      (∀ x ∈ ([[(5 : DType)]] : List (List DType)), x.length = 1) ∧ 0 < 1) ∧
    (BulkSum.compute ([] : List (List DType)) = none ∧
      ∃ v, BulkSum.compute ([[(5 : DType)]] : List (List DType)) = some v ∧
        v.length = 1 ∧
        v.getD 0 0 = (([[(5 : DType)]] : List (List DType)).map
          (fun x => x.getD 0 0)).sum) :=
  ⟨⟨by simp, by simp, by decide⟩,
    claim9_bulksum [[(5 : DType)]] 1 0 (by simp) (by simp) (by decide)⟩

theorem bulkSumGrad_eval (g : List DType) :
    ∀ rs : List (List DType), (∀ r ∈ rs, r.length = g.length) →
      BulkSum.computeGrad g rs = some (List.replicate rs.length g) := by
  intro rs
  induction rs with
  | nil => intro _; rfl
  | cons r rest ih =>
    intro h
    have h1 : r.length = g.length := h r (by simp)
    have h2 := ih (fun z hz => h z (by simp [hz]))
    simp [BulkSum.computeGrad, cloneFromSlice_eq r g h1, h2, List.replicate_succ]

/-- Claim C2: for every operator in the catalog, `compute_grad` with
pre-sized per-child buffers overwrites them: two calls with identical
children values, upstream gradient and buffer sizes but different
initial buffer contents produce identical final buffer contents. -/
theorem claim2_compute_grad_overwrites
    (n m : ℕ) (x y g v r0 r1 r0a r1a q0 q0a : List DType) (s : DType)
    (rs rsa : List (List DType))
    (hx : x.length = n) (hy : y.length = n) (hg : g.length = n)
    (hv : v.length = n)
    (h0 : r0.length = n) (h1 : r1.length = n)
    (h0a : r0a.length = n) (h1a : r1a.length = n)
    (hq0 : q0.length = m) (hq0a : q0a.length = m)
    (hrs : ∀ r ∈ rs, r.length = n) (hrsa : ∀ r ∈ rsa, r.length = n)
    (hlen : rs.length = rsa.length) :
    Variable.computeGrad g [] = Variable.computeGrad g [] ∧
    Constant.computeGrad g [] = Constant.computeGrad g [] ∧
    AddN.computeGrad g [r0, r1] = AddN.computeGrad g [r0a, r1a] ∧
    Subtract.computeGrad g [r0, r1] = Subtract.computeGrad g [r0a, r1a] ∧
    Multiply.computeGrad x y g [r0, r1] = Multiply.computeGrad x y g [r0a, r1a] ∧
    Divide.computeGrad x y g [r0, r1] = Divide.computeGrad x y g [r0a, r1a] ∧
    Power.computeGrad x y g [r0, r1] = Power.computeGrad x y g [r0a, r1a] ∧
    SumVec.computeGrad [s] [q0] = SumVec.computeGrad [s] [q0a] ∧
    Cos.computeGrad x g [r0] = Cos.computeGrad x g [r0a] ∧
    Sin.computeGrad x g [r0] = Sin.computeGrad x g [r0a] ∧
    Ln.computeGrad x g [r0] = Ln.computeGrad x g [r0a] ∧
    Exp.computeGrad v g [r0] = Exp.computeGrad v g [r0a] ∧
    Negate.computeGrad g [r0] = Negate.computeGrad g [r0a] ∧
    BulkSum.computeGrad g rs = BulkSum.computeGrad g rsa := by
  refine ⟨rfl, rfl, ?_, ?_, ?_, ?_, ?_, ?_, ?_, ?_, ?_, ?_, ?_, ?_⟩
  · simp [AddN.computeGrad,
      cloneFromSlice_eq _ _ (h0.trans hg.symm),
      cloneFromSlice_eq _ _ (h1.trans hg.symm),
      cloneFromSlice_eq _ _ (h0a.trans hg.symm),
      cloneFromSlice_eq _ _ (h1a.trans hg.symm)]
  · simp [Subtract.computeGrad, fillList, h0, h1, h0a, h1a]
  · simp [Multiply.computeGrad,
      cloneFromSlice_eq _ _ (h0.trans hy.symm),
      cloneFromSlice_eq _ _ (h1.trans hx.symm),
      cloneFromSlice_eq _ _ (h0a.trans hy.symm),
      cloneFromSlice_eq _ _ (h1a.trans hx.symm)]
  · have w0 := writeZip_eq r0 (y.map fun yi => (1 : DType) / yi) (by simp [h0, hy])
    have w0a := writeZip_eq r0a (y.map fun yi => (1 : DType) / yi) (by simp [h0a, hy])
    have w1 := writeZip_eq r1
      (List.zipWith (fun xi yi => -xi / Real.rpow yi 2) x y) (by simp [h1, hx, hy])
    have w1a := writeZip_eq r1a
      (List.zipWith (fun xi yi => -xi / Real.rpow yi 2) x y) (by simp [h1a, hx, hy])
    simp only [Divide.computeGrad]
    rw [w0, w0a, w1, w1a]
  · have w0 := writeZip_eq r0
      (List.zipWith (fun xi yi => yi * Real.rpow xi (yi - 1)) x y) (by simp [h0, hx, hy])
    have w0a := writeZip_eq r0a
      (List.zipWith (fun xi yi => yi * Real.rpow xi (yi - 1)) x y) (by simp [h0a, hx, hy])
    have w1 := writeZip_eq r1
      (List.zipWith (fun xi yi => Real.log yi * Real.rpow xi yi) x y) (by simp [h1, hx, hy])
    have w1a := writeZip_eq r1a
      (List.zipWith (fun xi yi => Real.log yi * Real.rpow xi yi) x y) (by simp [h1a, hx, hy])
    simp only [Power.computeGrad]
    rw [w0, w0a, w1, w1a]
  · simp [SumVec.computeGrad, fillList, hq0, hq0a]
  · have w0 := writeZip_eq r0
      (List.zipWith (fun gi xi => gi * -Real.sin xi) g x) (by simp [h0, hg, hx])
    have w0a := writeZip_eq r0a
      (List.zipWith (fun gi xi => gi * -Real.sin xi) g x) (by simp [h0a, hg, hx])
    simp only [Cos.computeGrad]
    rw [w0, w0a]
  · have c0 : (List.zipWith (fun gi xi => gi * Real.cos xi) g x).length = n := by
      simp [hg, hx]
    simp [Sin.computeGrad,
      writeZip_eq _ _ (h0.trans c0.symm), writeZip_eq _ _ (h0a.trans c0.symm)]
  · have c0 : (List.zipWith (fun gi xi => gi / xi) g x).length = n := by
      simp [hg, hx]
    simp [Ln.computeGrad,
      writeZip_eq _ _ (h0.trans c0.symm), writeZip_eq _ _ (h0a.trans c0.symm)]
  · simp [Exp.computeGrad,
      cloneFromSlice_eq _ _ (h0.trans hv.symm),
      cloneFromSlice_eq _ _ (h0a.trans hv.symm)]
  · have c0 : (g.map fun gi => -gi).length = n := by simp [hg]
    simp [Negate.computeGrad,
      writeZip_eq _ _ (h0.trans c0.symm), writeZip_eq _ _ (h0a.trans c0.symm)]
  · rw [bulkSumGrad_eval g rs (fun r hr => (hrs r hr).trans hg.symm),
      bulkSumGrad_eval g rsa (fun r hr => (hrsa r hr).trans hg.symm), hlen]

theorem claim2_witness :
    (([(2 : DType)]).length = 1 ∧ ([(3 : DType)]).length = 1 ∧
      ([(4 : DType)]).length = 1 ∧ ([(5 : DType)]).length = 1 ∧
      ([(6 : DType)]).length = 1 ∧ ([(7 : DType)]).length = 1 ∧
      ([(8 : DType)]).length = 1 ∧ ([(9 : DType)]).length = 1 ∧
      ([(10 : DType), 11]).length = 2 ∧ ([(12 : DType), 13]).length = 2 ∧
      (∀ r ∈ ([[(15 : DType)]] : List (List DType)), r.length = 1) ∧
      (∀ r ∈ ([[(16 : DType)]] : List (List DType)), r.length = 1) ∧
      ([[(15 : DType)]] : List (List DType)).length
        = ([[(16 : DType)]] : List (List DType)).length) ∧
    (Variable.computeGrad [(4 : DType)] [] = Variable.computeGrad [(4 : DType)] [] ∧
      Constant.computeGrad [(4 : DType)] [] = Constant.computeGrad [(4 : DType)] [] ∧
      AddN.computeGrad [(4 : DType)] [[(6 : DType)], [(7 : DType)]]
        = AddN.computeGrad [(4 : DType)] [[(8 : DType)], [(9 : DType)]] ∧
      Subtract.computeGrad [(4 : DType)] [[(6 : DType)], [(7 : DType)]]
        = Subtract.computeGrad [(4 : DType)] [[(8 : DType)], [(9 : DType)]] ∧
      Multiply.computeGrad [(2 : DType)] [(3 : DType)] [(4 : DType)]
          [[(6 : DType)], [(7 : DType)]]
        = Multiply.computeGrad [(2 : DType)] [(3 : DType)] [(4 : DType)]
          [[(8 : DType)], [(9 : DType)]] ∧
      Divide.computeGrad [(2 : DType)] [(3 : DType)] [(4 : DType)]
          [[(6 : DType)], [(7 : DType)]]
        = Divide.computeGrad [(2 : DType)] [(3 : DType)] [(4 : DType)]
          [[(8 : DType)], [(9 : DType)]] ∧
      Power.computeGrad [(2 : DType)] [(3 : DType)] [(4 : DType)]
          [[(6 : DType)], [(7 : DType)]]
        = Power.computeGrad [(2 : DType)] [(3 : DType)] [(4 : DType)]
          [[(8 : DType)], [(9 : DType)]] ∧
      SumVec.computeGrad [(14 : DType)] [[(10 : DType), 11]]
        = SumVec.computeGrad [(14 : DType)] [[(12 : DType), 13]] ∧
      Cos.computeGrad [(2 : DType)] [(4 : DType)] [[(6 : DType)]]
        = Cos.computeGrad [(2 : DType)] [(4 : DType)] [[(8 : DType)]] ∧
      Sin.computeGrad [(2 : DType)] [(4 : DType)] [[(6 : DType)]]
        = Sin.computeGrad [(2 : DType)] [(4 : DType)] [[(8 : DType)]] ∧
      Ln.computeGrad [(2 : DType)] [(4 : DType)] [[(6 : DType)]]
        = Ln.computeGrad [(2 : DType)] [(4 : DType)] [[(8 : DType)]] ∧
      Exp.computeGrad [(5 : DType)] [(4 : DType)] [[(6 : DType)]]
        = Exp.computeGrad [(5 : DType)] [(4 : DType)] [[(8 : DType)]] ∧
      Negate.computeGrad [(4 : DType)] [[(6 : DType)]]
        = Negate.computeGrad [(4 : DType)] [[(8 : DType)]] ∧
      BulkSum.computeGrad [(4 : DType)] ([[(15 : DType)]] : List (List DType))
        = BulkSum.computeGrad [(4 : DType)] ([[(16 : DType)]] : List (List DType))) :=
  ⟨⟨by decide, by decide, by decide, by decide, by decide, by decide, by decide,
    by decide, by decide, by decide, by simp, by simp, by decide⟩,
    claim2_compute_grad_overwrites 1 2 [(2 : DType)] [(3 : DType)] [(4 : DType)]
      [(5 : DType)] [(6 : DType)] [(7 : DType)] [(8 : DType)] [(9 : DType)]
      [(10 : DType), 11] [(12 : DType), 13] (14 : DType)
      [[(15 : DType)]] [[(16 : DType)]]
      (by decide) (by decide) (by decide) (by decide) (by decide) (by decide)
      (by decide) (by decide) (by decide) (by decide) (by simp) (by simp)
      (by decide)⟩

end SimpleGrad
